import Mathlib

/-!
Shallow embedding of the ETL pipeline of `etl_inseguridad`
(`extract.py`, `transform.py`, `load.py`), together with proofs of the
specification claims about it.

Conventions of the embedding:
* pandas DataFrames become lists of records, preserving row order;
* a nullable column becomes an `Option`; `dropna(subset=[c])` becomes a
  filter on `isSome`;
* floating point measurement values become `Rat` (they are only carried
  around and compared for equality, never computed with);
* the column `año` is rendered `anio` (`ñ` is not a valid Lean
  identifier character);
* a Python `dict` built by successive assignment becomes a lookup that
  returns the id of the last matching entry;
* a Python `set` of tuples becomes the first-occurrence deduplicated
  list of the inserted elements; its contents are exactly the contents
  of the set, while the real iteration order is unspecified (hash
  order), so the fact construction is additionally parameterised by the
  enumeration order of that set;
* a `KeyError` (lookup-map miss) makes the fact construction return
  `none`.
-/

/-! ## Generic list helpers used by the embedding -/

/-- Pair each element of a list with an integer id, starting at `start`
and increasing by one per element (the `id_counter` pattern of
`transform.py`). -/
def withIds {α : Type} (start : Nat) : List α → List (Nat × α)
  | [] => []
  | a :: l => (start, a) :: withIds (start + 1) l

/-- Keep only the first occurrence of each key, in order
(`DataFrame.drop_duplicates(subset=..., keep="first")`); `seen` is the
accumulator of keys already emitted. -/
def dropDupByKeyAux {α κ : Type} [DecidableEq κ] (key : α → κ) (seen : List κ) :
    List α → List α
  | [] => []
  | a :: l =>
    if key a ∈ seen then dropDupByKeyAux key seen l
    else a :: dropDupByKeyAux key (key a :: seen) l

/-- First-occurrence deduplication by key with no keys pre-seen. -/
def dropDupByKey {α κ : Type} [DecidableEq κ] (key : α → κ) (l : List α) : List α :=
  dropDupByKeyAux key [] l

/-- First-occurrence deduplication of whole elements: the contents of a
Python `set` built by inserting the elements of `l` in order, or of the
`unique()` of a pandas column. -/
def uniqueFirst {α : Type} [DecidableEq α] (l : List α) : List α :=
  dropDupByKey id l

/-- Position of the first occurrence of `s` in `l`. -/
def posOf (s : String) : List String → Option Nat
  | [] => none
  | a :: l => if a = s then some 0 else (posOf s l).map (· + 1)

/-- Lexicographic comparison of code-point sequences: exactly the string
comparison Python `sorted` uses. -/
def strLtChars : List Char → List Char → Bool
  | [], [] => false
  | [], _ :: _ => true
  | _ :: _, [] => false
  | a :: s, b :: t =>
    if a.toNat < b.toNat then true
    else if b.toNat < a.toNat then false
    else strLtChars s t

/-- Python string `<` (code-point lexicographic order). -/
def pyStrLt (s t : String) : Bool := strLtChars s.data t.data

/-- Insert a string into an already sorted list of strings. -/
def insertSorted (s : String) : List String → List String
  | [] => [s]
  | a :: l => if pyStrLt a s then a :: insertSorted s l else s :: a :: l

/-- Insertion sort in the Python string order: on duplicate-free input
this produces the same list as Python `sorted`, since both produce the
unique sorted arrangement. -/
def sortStrings : List String → List String
  | [] => []
  | a :: l => insertSorted a (sortStrings l)

/-! ## Rows of the three source tables (`extract.py` schemas) -/

/-- One row of the regional source table, columns
`region, dato_region, dato_nacional, tipo_dato, año, indicador`. -/
structure RegRow where
  region : String
  dato_region : Option Rat
  dato_nacional : Option Rat
  tipo_dato : String
  anio : Int
  indicador : String
deriving DecidableEq, Repr

/-- One row of the departmental source table, columns `departamento,
año, indicador, dato_departamento, dato_nacional, tipo_dato,
tipo_de_medida`. -/
structure DepRow where
  departamento : String
  anio : Int
  indicador : String
  dato_departamento : Option Rat
  dato_nacional : Option Rat
  tipo_dato : String
  tipo_de_medida : String
deriving DecidableEq, Repr

/-- One row of the municipal source table, columns `municipio,
departamento, año, indicador, dato_municipio, dato_departamento,
dato_nacional, tipo_dato, tipo_de_medida`. -/
structure MunRow where
  municipio : String
  departamento : String
  anio : Int
  indicador : String
  dato_municipio : Option Rat
  dato_departamento : Option Rat
  dato_nacional : Option Rat
  tipo_dato : String
  tipo_de_medida : String
deriving DecidableEq, Repr

/-! ## Rows of the three output tables -/

/-- One row of the `geografia` table. -/
structure GeoRow where
  id_geografia : Nat
  nivel : String
  nombre : String
  id_padre : Option Nat
  codigo_dane : Option String
deriving DecidableEq, Repr

/-- One row of the `indicadores` table. -/
structure IndRow where
  id_indicador : Nat
  nombre_indicador : String
  tipo_dato : String
  tipo_de_medida : String
deriving DecidableEq, Repr

/-- One row of the `datos_medicion` table. -/
structure MedRow where
  id_medicion : Nat
  id_geografia : Nat
  id_indicador : Nat
  anio : Int
  valor : Rat
deriving DecidableEq, Repr

/-! ## `create_geografia_table` (transform.py lines 16-96) -/

/-- The sorted distinct region names of the regional table
(`sorted(df_regional["region"].unique())`). -/
def regionNames (reg : List RegRow) : List String :=
  sortStrings (uniqueFirst (reg.map (·.region)))

/-- The sorted distinct department names of the union of the
departmental and municipal tables
(`sorted(set(list(departamentos) + list(departamentos_municipal)))`). -/
def deptNames (dep : List DepRow) (mun : List MunRow) : List String :=
  sortStrings (uniqueFirst (dep.map (·.departamento) ++ mun.map (·.departamento)))

/-- The distinct `(municipio, departamento)` pairs of the municipal
table in first-occurrence order
(`df_municipal[["municipio", "departamento"]].drop_duplicates()`). -/
def muniPairs (mun : List MunRow) : List (String × String) :=
  uniqueFirst (mun.map fun r => (r.municipio, r.departamento))

/-- The geography table: one Nacional row with id 1, then the Regional
rows over the sorted region names, then the Departamental rows over the
sorted union of department names, then one Municipal row per distinct
`(municipio, departamento)` pair, ids assigned sequentially in that
order; `departamento_ids[...]` becomes a position lookup in the
department name list. -/
def create_geografia_table (reg : List RegRow) (dep : List DepRow)
    (mun : List MunRow) : List GeoRow :=
  let regiones := regionNames reg
  let departamentos := deptNames dep mun
  let depStart := 2 + regiones.length
  let munStart := depStart + departamentos.length
  ⟨1, "Nacional", "Colombia", none, none⟩ ::
    ((withIds 2 regiones).map fun p =>
      ⟨p.1, "Regional", p.2, some 1, none⟩) ++
    ((withIds depStart departamentos).map fun p =>
      ⟨p.1, "Departamental", p.2, some 1, none⟩) ++
    ((withIds munStart (muniPairs mun)).map fun p =>
      ⟨p.1, "Municipal", p.2.1, (posOf p.2.2 departamentos).map (depStart + ·), none⟩)

/-! ## `create_indicadores_table` (transform.py lines 99-162) -/

/-- An indicator triple before id assignment. -/
structure IndTriple where
  nombre_indicador : String
  tipo_dato : String
  tipo_de_medida : String
deriving DecidableEq, Repr

/-- The `indicadores_data` list: first-occurrence representatives per
key from each source table, regional rows getting the fixed methodology
`"Prevalencia"`, concatenated Regional then Departamental then
Municipal. -/
def indicadoresData (reg : List RegRow) (dep : List DepRow)
    (mun : List MunRow) : List IndTriple :=
  ((dropDupByKey (fun r : RegRow => (r.indicador, r.tipo_dato)) reg).map fun r =>
    ⟨r.indicador, r.tipo_dato, "Prevalencia"⟩) ++
  ((dropDupByKey (fun r : DepRow => (r.indicador, r.tipo_dato, r.tipo_de_medida)) dep).map fun r =>
    ⟨r.indicador, r.tipo_dato, r.tipo_de_medida⟩) ++
  ((dropDupByKey (fun r : MunRow => (r.indicador, r.tipo_dato, r.tipo_de_medida)) mun).map fun r =>
    ⟨r.indicador, r.tipo_dato, r.tipo_de_medida⟩)

/-- The indicator table: the deduplicated triples (`indicadores_unicos`)
with sequential ids from 1. -/
def create_indicadores_table (reg : List RegRow) (dep : List DepRow)
    (mun : List MunRow) : List IndRow :=
  (withIds 1 (uniqueFirst (indicadoresData reg dep mun))).map fun p =>
    ⟨p.1, p.2.nombre_indicador, p.2.tipo_dato, p.2.tipo_de_medida⟩

/-! ## `create_datos_medicion_table` (transform.py lines 165-300) -/

/-- The `geografia_map` dict keyed by `(nivel, nombre)`: built by
iterating the geography rows and overwriting on key collision, so a
lookup returns the id of the LAST row with that level and name. -/
def lookupGeoId (nivel nombre : String) : List GeoRow → Option Nat
  | [] => none
  | r :: l =>
    match lookupGeoId nivel nombre l with
    | some i => some i
    | none => if r.nivel = nivel ∧ r.nombre = nombre then some r.id_geografia else none

/-- The `indicadores_map` dict keyed by
`(nombre_indicador, tipo_dato, tipo_de_medida)`, last write wins. -/
def lookupIndId (nombre tipo medida : String) : List IndRow → Option Nat
  | [] => none
  | r :: l =>
    match lookupIndId nombre tipo medida l with
    | some i => some i
    | none =>
      if r.nombre_indicador = nombre ∧ r.tipo_dato = tipo ∧ r.tipo_de_medida = medida
      then some r.id_indicador else none

/-- A fact before `id_medicion` assignment. -/
structure FactCand where
  id_geografia : Nat
  id_indicador : Nat
  anio : Int
  valor : Rat
deriving DecidableEq, Repr

/-- One element of the `datos_nacionales` set: the tuple
`(indicador, tipo_de_medida, tipo_dato, año, dato_nacional)`. -/
structure NatCand where
  indicador : String
  tipo_de_medida : String
  tipo_dato : String
  anio : Int
  valor : Rat
deriving DecidableEq, Repr

/-- Regional fact emission: iterate the rows of
`df_regional.dropna(subset=["dato_region"])` in order, look up
`("Regional", region)` and `(indicador, tipo_dato, "Prevalencia")`; a
lookup miss is a `KeyError`, rendered `none`. -/
def regionalFacts (geo : List GeoRow) (ind : List IndRow) :
    List RegRow → Option (List FactCand)
  | [] => some []
  | r :: l =>
    match r.dato_region with
    | none => regionalFacts geo ind l
    | some v =>
      match lookupGeoId "Regional" r.region geo,
            lookupIndId r.indicador r.tipo_dato "Prevalencia" ind,
            regionalFacts geo ind l with
      | some g, some i, some rest => some (⟨g, i, r.anio, v⟩ :: rest)
      | _, _, _ => none

/-- Departmental fact emission over
`df_departamental.dropna(subset=["dato_departamento"])`. -/
def departamentalFacts (geo : List GeoRow) (ind : List IndRow) :
    List DepRow → Option (List FactCand)
  | [] => some []
  | r :: l =>
    match r.dato_departamento with
    | none => departamentalFacts geo ind l
    | some v =>
      match lookupGeoId "Departamental" r.departamento geo,
            lookupIndId r.indicador r.tipo_dato r.tipo_de_medida ind,
            departamentalFacts geo ind l with
      | some g, some i, some rest => some (⟨g, i, r.anio, v⟩ :: rest)
      | _, _, _ => none

/-- Municipal fact emission over
`df_municipal.dropna(subset=["dato_municipio"])`; note the geography key
is `("Municipal", municipio)` — the department is not part of the key. -/
def municipalFacts (geo : List GeoRow) (ind : List IndRow) :
    List MunRow → Option (List FactCand)
  | [] => some []
  | r :: l =>
    match r.dato_municipio with
    | none => municipalFacts geo ind l
    | some v =>
      match lookupGeoId "Municipal" r.municipio geo,
            lookupIndId r.indicador r.tipo_dato r.tipo_de_medida ind,
            municipalFacts geo ind l with
      | some g, some i, some rest => some (⟨g, i, r.anio, v⟩ :: rest)
      | _, _, _ => none

/-- The insertion sequence of the `datos_nacionales` set: every row with
a non-null `dato_nacional` of the regional (methodology fixed to
`"Prevalencia"`), then departmental, then municipal table. -/
def natInsertions (reg : List RegRow) (dep : List DepRow)
    (mun : List MunRow) : List NatCand :=
  (reg.filterMap fun r => r.dato_nacional.map fun v =>
    ⟨r.indicador, "Prevalencia", r.tipo_dato, r.anio, v⟩) ++
  (dep.filterMap fun r => r.dato_nacional.map fun v =>
    ⟨r.indicador, r.tipo_de_medida, r.tipo_dato, r.anio, v⟩) ++
  (mun.filterMap fun r => r.dato_nacional.map fun v =>
    ⟨r.indicador, r.tipo_de_medida, r.tipo_dato, r.anio, v⟩)

/-- The contents of the `datos_nacionales` set, enumerated in first
insertion order. The Python set holds exactly these elements; its real
iteration order is an unspecified hash order, which is why the
constructions below also come in a version parameterised by the
enumeration order. -/
def natCandidates (reg : List RegRow) (dep : List DepRow)
    (mun : List MunRow) : List NatCand :=
  uniqueFirst (natInsertions reg dep mun)

/-- Lifted national fact emission: look up `("Nacional", "Colombia")`
once, then one fact per national candidate against that id. -/
def nationalFactsGo (ind : List IndRow) (idColombia : Nat) :
    List NatCand → Option (List FactCand)
  | [] => some []
  | c :: l =>
    match lookupIndId c.indicador c.tipo_dato c.tipo_de_medida ind,
          nationalFactsGo ind idColombia l with
    | some i, some rest => some (⟨idColombia, i, c.anio, c.valor⟩ :: rest)
    | _, _ => none

/-- Lifted national facts for a given enumeration of the candidate set. -/
def nationalFacts (geo : List GeoRow) (ind : List IndRow)
    (cands : List NatCand) : Option (List FactCand) :=
  match lookupGeoId "Nacional" "Colombia" geo with
  | none => none
  | some idColombia => nationalFactsGo ind idColombia cands

/-- All emitted facts in emission order — Regional, then Departamental,
then Municipal, then lifted national — for a given enumeration of the
national candidate set. -/
def emittedFactsWith (reg : List RegRow) (dep : List DepRow) (mun : List MunRow)
    (geo : List GeoRow) (ind : List IndRow) (cands : List NatCand) :
    Option (List FactCand) :=
  match regionalFacts geo ind reg, departamentalFacts geo ind dep,
        municipalFacts geo ind mun, nationalFacts geo ind cands with
  | some a, some b, some c, some d => some (a ++ b ++ c ++ d)
  | _, _, _, _ => none

/-- Assign `id_medicion` sequentially from 1 in emission order. -/
def numberFacts (l : List FactCand) : List MedRow :=
  (withIds 1 l).map fun p => ⟨p.1, p.2.id_geografia, p.2.id_indicador, p.2.anio, p.2.valor⟩

/-- The natural key of a fact row. -/
def natKey (r : MedRow) : Nat × Nat × Int := (r.id_geografia, r.id_indicador, r.anio)

/-- The fact table for a given enumeration of the national candidate
set: number the emitted facts, then
`drop_duplicates(subset=["id_geografia", "id_indicador", "año"], keep="first")`. -/
def create_datos_medicion_with (cands : List NatCand) (reg : List RegRow)
    (dep : List DepRow) (mun : List MunRow) (geo : List GeoRow)
    (ind : List IndRow) : Option (List MedRow) :=
  (emittedFactsWith reg dep mun geo ind cands).map fun em =>
    dropDupByKey natKey (numberFacts em)

/-- The fact table with the candidate set enumerated in first-insertion
order. -/
def create_datos_medicion_table (reg : List RegRow) (dep : List DepRow)
    (mun : List MunRow) (geo : List GeoRow) (ind : List IndRow) :
    Option (List MedRow) :=
  create_datos_medicion_with (natCandidates reg dep mun) reg dep mun geo ind

/-- The `duplicates_removed` count reported by
`create_datos_medicion_table`: rows emitted minus rows kept. -/
def duplicates_removed (reg : List RegRow) (dep : List DepRow)
    (mun : List MunRow) (geo : List GeoRow) (ind : List IndRow) : Option Nat :=
  (emittedFactsWith reg dep mun geo ind (natCandidates reg dep mun)).map fun em =>
    em.length - (dropDupByKey natKey (numberFacts em)).length

/-! ## `transform_data` (transform.py lines 351-404) -/

/-- The cleaned regional table
(`df_regional.dropna(subset=["dato_region"])`). -/
def clean_regional (reg : List RegRow) : List RegRow :=
  reg.filter fun r => r.dato_region.isSome

/-- The cleaned departmental table
(`df_departamental.dropna(subset=["dato_departamento"])`). -/
def clean_departamental (dep : List DepRow) : List DepRow :=
  dep.filter fun r => r.dato_departamento.isSome

/-- The cleaned municipal table
(`df_municipal.dropna(subset=["dato_municipio"])`). -/
def clean_municipal (mun : List MunRow) : List MunRow :=
  mun.filter fun r => r.dato_municipio.isSome

/-- The pure result of `transform_data`: the three normalized tables and
the three per-level filtered-row diagnostics (timestamping and CSV
snapshots are I/O and carry no table content). -/
structure TransformResult where
  geografia : List GeoRow
  indicadores : List IndRow
  medicion : Option (List MedRow)
  regional_filtered : Nat
  departamental_filtered : Nat
  municipal_filtered : Nat
deriving DecidableEq, Repr

/-- `transform_data`: clean the three tables, report the filtered
counts, and build the three normalized tables from the cleaned data. -/
def transform_data (reg : List RegRow) (dep : List DepRow)
    (mun : List MunRow) : TransformResult :=
  let rc := clean_regional reg
  let dc := clean_departamental dep
  let mc := clean_municipal mun
  let geo := create_geografia_table rc dc mc
  let ind := create_indicadores_table rc dc mc
  ⟨geo, ind, create_datos_medicion_table rc dc mc geo ind,
   reg.length - rc.length, dep.length - dc.length, mun.length - mc.length⟩

/-! ## `extract_excel_files` and `validate_dataframes` (extract.py) -/

/-- A loaded sheet as validation sees it: its column names in order and
its number of data rows. -/
structure RawDf where
  columns : List String
  nrows : Nat
deriving DecidableEq, Repr

/-- The distinct error conditions of the Extract stage, as the
specification names them; the source raises `FileNotFoundError` for a
missing file and `ValueError` for the two validation failures, each
message naming the offending level (and, for a schema mismatch, the
expected and actual column lists). -/
inductive ExtractError where
  | missingSourceFile (level : String)
  | schemaValidationError (level : String) (expected actual : List String)
  | emptySourceError (level : String)
deriving DecidableEq, Repr

/-- Expected regional columns. -/
def expectedRegionalCols : List String :=
  ["region", "dato_region", "dato_nacional", "tipo_dato", "año", "indicador"]

/-- Expected departmental columns. -/
def expectedDepartamentalCols : List String :=
  ["departamento", "año", "indicador", "dato_departamento", "dato_nacional",
   "tipo_dato", "tipo_de_medida"]

/-- Expected municipal columns. -/
def expectedMunicipalCols : List String :=
  ["municipio", "departamento", "año", "indicador", "dato_municipio",
   "dato_departamento", "dato_nacional", "tipo_dato", "tipo_de_medida"]

/-- `extract_excel_files`: each argument is the file as found on disk
(`none` when absent). Existence of all three files is checked, in the
dictionary order regional, departamental, municipal, before anything is
loaded; only when all exist are the three tables returned. -/
def extract_excel_files (regional departamental municipal : Option RawDf) :
    Except ExtractError (RawDf × RawDf × RawDf) :=
  match regional with
  | none => .error (.missingSourceFile "regional")
  | some r =>
    match departamental with
    | none => .error (.missingSourceFile "departamental")
    | some d =>
      match municipal with
      | none => .error (.missingSourceFile "municipal")
      | some m => .ok (r, d, m)

/-- `validate_dataframes`: first compare each table's columns against
its expected schema, in the order regional, departamental, municipal;
then check each table for emptiness in the same order; return `true`
when everything passes. -/
def validate_dataframes (r d m : RawDf) : Except ExtractError Bool :=
  if r.columns ≠ expectedRegionalCols then
    .error (.schemaValidationError "regional" expectedRegionalCols r.columns)
  else if d.columns ≠ expectedDepartamentalCols then
    .error (.schemaValidationError "departamental" expectedDepartamentalCols d.columns)
  else if m.columns ≠ expectedMunicipalCols then
    .error (.schemaValidationError "municipal" expectedMunicipalCols m.columns)
  else if r.nrows = 0 then .error (.emptySourceError "regional")
  else if d.nrows = 0 then .error (.emptySourceError "departamental")
  else if m.nrows = 0 then .error (.emptySourceError "municipal")
  else .ok true

/-! ## `load_data_to_database` (load.py lines 110-185)

The SQLite connection is modelled as the committed table state of the
fresh timestamped database file (schema created and committed by
`create_database_schema`, tables empty; the DELETEs touch empty
tables). Each of the three bulk inserts is one `DataFrame.to_sql` call
on the raw sqlite3 connection: pandas runs it inside a transaction of
its own and commits it on success, so a table's rows are durable as
soon as its `to_sql` call returns — a later failure does not undo
them. When an insert raises, pandas rolls back only that call's rows,
and the `conn.rollback()` of the `except` arm is a no-op for the
already committed tables: `(False, "")` is returned with the earlier
tables still in the file. Inserts enforce the declared constraints:
primary-key uniqueness and, on `datos_medicion`, the
`UNIQUE(id_geografia, id_indicador, año)` natural key (SQLite does not
enforce foreign keys by default). -/

/-- Committed contents of the three tables of one database file. -/
structure DbState where
  geografia : List GeoRow
  indicadores : List IndRow
  datos_medicion : List MedRow
deriving DecidableEq, Repr

/-- The fresh database right after `create_database_schema`: schema
committed, all three tables empty. -/
def freshDb : DbState := ⟨[], [], []⟩

/-- The Load-stage failure condition, named as in the specification. -/
inductive LoadError where
  | insertFailed (table : String)
deriving DecidableEq, Repr

/-- Bulk insert into `geografia`: fails on a duplicate primary key. -/
def insertGeoRows (acc : List GeoRow) : List GeoRow → Except LoadError (List GeoRow)
  | [] => .ok acc
  | r :: l =>
    if acc.any fun e => e.id_geografia = r.id_geografia then
      .error (.insertFailed "geografia")
    else insertGeoRows (acc ++ [r]) l

/-- Bulk insert into `indicadores`: fails on a duplicate primary key. -/
def insertIndRows (acc : List IndRow) : List IndRow → Except LoadError (List IndRow)
  | [] => .ok acc
  | r :: l =>
    if acc.any fun e => e.id_indicador = r.id_indicador then
      .error (.insertFailed "indicadores")
    else insertIndRows (acc ++ [r]) l

/-- Bulk insert into `datos_medicion`: fails on a duplicate primary key
or a duplicate `(id_geografia, id_indicador, año)` natural key. -/
def insertMedRows (acc : List MedRow) : List MedRow → Except LoadError (List MedRow)
  | [] => .ok acc
  | r :: l =>
    if acc.any fun e => e.id_medicion = r.id_medicion ∨ natKey e = natKey r then
      .error (.insertFailed "datos_medicion")
    else insertMedRows (acc ++ [r]) l

/-- `load_data_to_database`: run the three per-table `to_sql` inserts
in dependency order, each committing its rows on success; the first
failing insert aborts the rest and returns `(false, ...)` with exactly
the tables committed so far still in the file; when all three succeed,
`(true, ...)` is returned with all three tables committed. -/
def load_data_to_database (g : List GeoRow) (i : List IndRow) (m : List MedRow) :
    Bool × DbState :=
  match insertGeoRows [] g with
  | .error _ => (false, freshDb)
  | .ok g2 =>
    match insertIndRows [] i with
    | .error _ => (false, ⟨g2, [], []⟩)
    | .ok i2 =>
      match insertMedRows [] m with
      | .error _ => (false, ⟨g2, i2, []⟩)
      | .ok m2 => (true, ⟨g2, i2, m2⟩)

/-! ## Rank of a geography level and concrete sample inputs -/

/-- Height of a level in the Nacional > Regional > Departamental >
Municipal containment hierarchy (0 is the top). -/
def nivelRank (s : String) : Nat :=
  if s = "Nacional" then 0
  else if s = "Regional" then 1
  else if s = "Departamental" then 2
  else 3

/-- Forget the assigned `id_medicion` of a fact row. -/
def toCand (r : MedRow) : FactCand := ⟨r.id_geografia, r.id_indicador, r.anio, r.valor⟩

/-- A one-row regional sample: Caribe, 0.15 regional and 0.10 national
value, 2022. -/
def sampleRegional : List RegRow :=
  [⟨"Caribe", some (mkRat 15 100), some (mkRat 10 100), "Porcentaje", 2022, "IA"⟩]

/-- A one-row departmental sample: Atlántico, 0.12 departmental value,
2022. -/
def sampleDepartamental : List DepRow :=
  [⟨"Atlántico", 2022, "IA", some (mkRat 12 100), some (mkRat 10 100),
    "Porcentaje", "Prevalencia"⟩]

/-- A one-row municipal sample: Soledad in Atlántico, 0.18 municipal
value, 2022. -/
def sampleMunicipal : List MunRow :=
  [⟨"Soledad", "Atlántico", 2022, "IA", some (mkRat 18 100), some (mkRat 12 100),
    some (mkRat 10 100), "Porcentaje", "Prevalencia"⟩]

/-- The duplicated regional input of the specification scenario: two
identical rows for Caribe, year 2022, indicator "Inseguridad
Alimentaria Grave", value 0.15, with the identical national value 0.10
embedded in both. -/
def dupRegional : List RegRow :=
  [⟨"Caribe", some (mkRat 15 100), some (mkRat 10 100), "Porcentaje", 2022,
    "Inseguridad Alimentaria Grave"⟩,
   ⟨"Caribe", some (mkRat 15 100), some (mkRat 10 100), "Porcentaje", 2022,
    "Inseguridad Alimentaria Grave"⟩]

/-- A municipal input with the same municipality name under two
different departments, in two different years so that both facts
survive natural-key deduplication. -/
def homonymMunicipal : List MunRow :=
  [⟨"San José", "Antioquia", 2020, "IA", some (mkRat 20 100), none, none,
    "Porcentaje", "Prevalencia"⟩,
   ⟨"San José", "Bolívar", 2021, "IA", some (mkRat 30 100), none, none,
    "Porcentaje", "Prevalencia"⟩]

/-- A regional input whose two rows report two different national
values for the same indicator and year, so the national-candidate set
has two elements with the same natural key. -/
def inconsistentRegional : List RegRow :=
  [⟨"Caribe", some (mkRat 15 100), some (mkRat 10 100), "Porcentaje", 2022, "IA"⟩,
   ⟨"Pacífica", some (mkRat 20 100), some (mkRat 12 100), "Porcentaje", 2022, "IA"⟩]

/-- A fact table carrying a duplicated natural key, violating the
`UNIQUE(id_geografia, id_indicador, año)` constraint on insert. -/
def dupKeyMedicion : List MedRow :=
  [⟨1, 2, 1, 2022, mkRat 15 100⟩, ⟨2, 2, 1, 2022, mkRat 20 100⟩]

/-- The emitted (pre-deduplication) fact candidates of the sample
inputs: one Regional, one Departamental, one Municipal fact and the one
deduplicated lifted-national candidate. -/
def sampleEmitted : List FactCand :=
  [⟨2, 1, 2022, mkRat 15 100⟩, ⟨3, 1, 2022, mkRat 12 100⟩,
   ⟨4, 1, 2022, mkRat 18 100⟩, ⟨1, 1, 2022, mkRat 10 100⟩]

/-- The fact table produced from the sample inputs. -/
def sampleMedicion : List MedRow :=
  [⟨1, 2, 1, 2022, mkRat 15 100⟩, ⟨2, 3, 1, 2022, mkRat 12 100⟩,
   ⟨3, 4, 1, 2022, mkRat 18 100⟩, ⟨4, 1, 1, 2022, mkRat 10 100⟩]

/-- A one-row geography table for the partial-commit scenario. -/
def soloGeografia : List GeoRow := [⟨1, "Nacional", "Colombia", none, none⟩]

/-- A one-row indicator table for the partial-commit scenario. -/
def soloIndicadores : List IndRow := [⟨1, "IA", "Porcentaje", "Prevalencia"⟩]

/-! ## Lemmas about the generic helpers -/

theorem length_withIds {α : Type} (start : Nat) (l : List α) :
    (withIds start l).length = l.length := by
  induction l generalizing start with
  | nil => rfl
  | cons a l ih => simp [withIds, ih]

theorem snd_mem_of_mem_withIds {α : Type} {start i : Nat} {a : α} {l : List α}
    (h : (i, a) ∈ withIds start l) : a ∈ l := by
  induction l generalizing start with
  | nil => simp [withIds] at h
  | cons b l ih =>
    simp only [withIds, List.mem_cons] at h
    rcases h with h | h
    · simp [Prod.ext_iff] at h
      simp [h.2]
    · exact List.mem_cons_of_mem _ (ih h)

theorem mem_withIds_of_mem {α : Type} {a : α} {l : List α} (start : Nat)
    (h : a ∈ l) : ∃ i, (i, a) ∈ withIds start l := by
  induction l generalizing start with
  | nil => simp at h
  | cons b l ih =>
    rcases List.mem_cons.mp h with rfl | h
    · exact ⟨start, List.mem_cons_self _ _⟩
    · obtain ⟨i, hi⟩ := ih (start + 1) h
      exact ⟨i, List.mem_cons_of_mem _ hi⟩

theorem dropDupByKeyAux_sublist {α κ : Type} [DecidableEq κ] (key : α → κ)
    (seen : List κ) (l : List α) : (dropDupByKeyAux key seen l).Sublist l := by
  induction l generalizing seen with
  | nil => simp [dropDupByKeyAux]
  | cons a l ih =>
    simp only [dropDupByKeyAux]
    split
    · exact (ih seen).cons a
    · exact (ih (key a :: seen)).cons₂ a

theorem mem_of_mem_dropDupByKeyAux {α κ : Type} [DecidableEq κ] {key : α → κ}
    {seen : List κ} {l : List α} {a : α} (h : a ∈ dropDupByKeyAux key seen l) :
    a ∈ l :=
  (dropDupByKeyAux_sublist key seen l).subset h

theorem mem_of_mem_dropDupByKey {α κ : Type} [DecidableEq κ] {key : α → κ}
    {l : List α} {a : α} (h : a ∈ dropDupByKey key l) : a ∈ l :=
  mem_of_mem_dropDupByKeyAux h

theorem key_not_seen_of_mem_dropDupByKeyAux {α κ : Type} [DecidableEq κ]
    {key : α → κ} {seen : List κ} {l : List α} {a : α}
    (h : a ∈ dropDupByKeyAux key seen l) : key a ∉ seen := by
  induction l generalizing seen with
  | nil => simp [dropDupByKeyAux] at h
  | cons b l ih =>
    simp only [dropDupByKeyAux] at h
    split at h
    · exact ih h
    · rcases List.mem_cons.mp h with rfl | h
      · assumption
      · intro hs
        exact ih h (List.mem_cons_of_mem _ hs)

theorem exists_mem_dropDupByKeyAux {α κ : Type} [DecidableEq κ] {key : α → κ}
    {l : List α} {a : α} (seen : List κ) (ha : a ∈ l) (hk : key a ∉ seen) :
    ∃ b ∈ dropDupByKeyAux key seen l, key b = key a := by
  induction l generalizing seen with
  | nil => simp at ha
  | cons c l ih =>
    simp only [dropDupByKeyAux]
    rcases List.mem_cons.mp ha with rfl | ha
    · rw [if_neg hk]
      exact ⟨a, List.mem_cons_self _ _, rfl⟩
    · by_cases hc : key c ∈ seen
      · rw [if_pos hc]
        exact ih seen ha hk
      · rw [if_neg hc]
        by_cases hac : key a = key c
        · exact ⟨c, List.mem_cons_self _ _, hac.symm⟩
        · obtain ⟨b, hb, hbk⟩ := ih (key c :: seen)
            ha (by simp [List.mem_cons, hac, hk])
          exact ⟨b, List.mem_cons_of_mem _ hb, hbk⟩

theorem mem_uniqueFirst {α : Type} [DecidableEq α] {a : α} {l : List α} :
    a ∈ uniqueFirst l ↔ a ∈ l := by
  constructor
  · exact mem_of_mem_dropDupByKey
  · intro h
    obtain ⟨b, hb, hk⟩ := @exists_mem_dropDupByKeyAux α α _ id l a [] h (by simp)
    have hba : b = a := hk
    exact hba ▸ hb

theorem dropDupByKeyAux_pairwise {α κ : Type} [DecidableEq κ] (key : α → κ)
    (seen : List κ) (l : List α) :
    (dropDupByKeyAux key seen l).Pairwise (fun a b => key a ≠ key b) := by
  induction l generalizing seen with
  | nil => simp [dropDupByKeyAux]
  | cons a l ih =>
    simp only [dropDupByKeyAux]
    split
    · exact ih seen
    · refine List.Pairwise.cons ?_ (ih (key a :: seen))
      intro b hb
      have := key_not_seen_of_mem_dropDupByKeyAux hb
      intro hab
      exact this (by simp [← hab])

theorem dropDupByKeyAux_filter {α κ : Type} [DecidableEq κ] (key : α → κ)
    (k : κ) (seen : List κ) (l : List α) :
    (dropDupByKeyAux key seen l).filter (fun a => decide (key a = k)) =
      if k ∈ seen then [] else (l.filter (fun a => decide (key a = k))).take 1 := by
  induction l generalizing seen with
  | nil => simp [dropDupByKeyAux]
  | cons a l ih =>
    simp only [dropDupByKeyAux]
    by_cases hseen : key a ∈ seen
    · by_cases hak : key a = k
      · subst hak
        simp [hseen, ih]
      · have hka : ¬(k = key a) := fun h => hak h.symm
        simp [hseen, ih, List.filter_cons, hak]
    · by_cases hak : key a = k
      · subst hak
        simp [hseen, ih, List.filter_cons]
      · have hka : ¬(k = key a) := fun h => hak h.symm
        simp [hseen, ih, List.filter_cons, hak, hka, List.mem_cons]

theorem mem_insertSorted {s b : String} {l : List String} :
    b ∈ insertSorted s l ↔ b = s ∨ b ∈ l := by
  induction l with
  | nil => simp [insertSorted]
  | cons a l ih =>
    simp only [insertSorted]
    split
    · simp only [List.mem_cons, ih]
      tauto
    · simp only [List.mem_cons]

theorem mem_sortStrings {b : String} {l : List String} :
    b ∈ sortStrings l ↔ b ∈ l := by
  induction l with
  | nil => simp [sortStrings]
  | cons a l ih => simp [sortStrings, mem_insertSorted, ih]

theorem posOf_exists_of_mem {s : String} {l : List String} (h : s ∈ l) :
    ∃ i, posOf s l = some i := by
  induction l with
  | nil => simp at h
  | cons a l ih =>
    simp only [posOf]
    by_cases ha : a = s
    · exact ⟨0, by simp [ha]⟩
    · rcases List.mem_cons.mp h with rfl | h
      · exact absurd rfl ha
      · obtain ⟨i, hi⟩ := ih h
        exact ⟨i + 1, by simp [ha, hi]⟩

theorem posOf_mem_withIds {s : String} {l : List String} {i : Nat} (start : Nat)
    (h : posOf s l = some i) : (start + i, s) ∈ withIds start l := by
  induction l generalizing start i with
  | nil => simp [posOf] at h
  | cons a l ih =>
    simp only [posOf] at h
    by_cases ha : a = s
    · simp only [if_pos ha] at h
      obtain rfl : (0 : Nat) = i := by simpa using h
      simp [withIds, ha]
    · simp only [if_neg ha, Option.map_eq_some'] at h
      obtain ⟨j, hj, rfl⟩ := h
      have := ih (start + 1) hj
      simp only [withIds, List.mem_cons]
      right
      have harith : start + (j + 1) = start + 1 + j := by omega
      rw [harith]
      exact this

/-! ## Lemmas about the lookup maps -/

theorem lookupGeoId_mem {nivel nombre : String} {geo : List GeoRow} {i : Nat}
    (h : lookupGeoId nivel nombre geo = some i) :
    ∃ g ∈ geo, g.id_geografia = i ∧ g.nivel = nivel ∧ g.nombre = nombre := by
  induction geo with
  | nil => simp [lookupGeoId] at h
  | cons r l ih =>
    simp only [lookupGeoId] at h
    cases hr : lookupGeoId nivel nombre l with
    | some j =>
      rw [hr] at h
      obtain rfl : j = i := by simpa using h
      obtain ⟨g, hg, hgi⟩ := ih hr
      exact ⟨g, List.mem_cons_of_mem _ hg, hgi⟩
    | none =>
      rw [hr] at h
      by_cases hc : r.nivel = nivel ∧ r.nombre = nombre
      · rw [if_pos hc] at h
        obtain rfl : r.id_geografia = i := by simpa using h
        exact ⟨r, List.mem_cons_self _ _, rfl, hc.1, hc.2⟩
      · rw [if_neg hc] at h
        simp at h

theorem lookupGeoId_eq_none {nivel nombre : String} {geo : List GeoRow}
    (h : lookupGeoId nivel nombre geo = none) :
    ∀ g ∈ geo, ¬(g.nivel = nivel ∧ g.nombre = nombre) := by
  induction geo with
  | nil => simp
  | cons r l ih =>
    simp only [lookupGeoId] at h
    cases hr : lookupGeoId nivel nombre l with
    | some j => rw [hr] at h; simp at h
    | none =>
      rw [hr] at h
      intro g hg
      rcases List.mem_cons.mp hg with rfl | hg
      · by_cases hc : g.nivel = nivel ∧ g.nombre = nombre
        · rw [if_pos hc] at h
          simp at h
        · exact hc
      · exact ih hr g hg

theorem lookupGeoId_last {nivel nombre : String} {geo : List GeoRow} {i : Nat}
    (h : lookupGeoId nivel nombre geo = some i) :
    ∃ pre g suf, geo = pre ++ g :: suf ∧ g.nivel = nivel ∧ g.nombre = nombre ∧
      g.id_geografia = i ∧ ∀ g₂ ∈ suf, ¬(g₂.nivel = nivel ∧ g₂.nombre = nombre) := by
  induction geo with
  | nil => simp [lookupGeoId] at h
  | cons r l ih =>
    simp only [lookupGeoId] at h
    cases hr : lookupGeoId nivel nombre l with
    | some j =>
      rw [hr] at h
      obtain rfl : j = i := by simpa using h
      obtain ⟨pre, g, suf, hdec, hgn, hgm, hgi, hsuf⟩ := ih hr
      exact ⟨r :: pre, g, suf, by simp [hdec], hgn, hgm, hgi, hsuf⟩
    | none =>
      rw [hr] at h
      by_cases hc : r.nivel = nivel ∧ r.nombre = nombre
      · rw [if_pos hc] at h
        obtain rfl : r.id_geografia = i := by simpa using h
        exact ⟨[], r, l, by simp, hc.1, hc.2, rfl, lookupGeoId_eq_none hr⟩
      · rw [if_neg hc] at h
        simp at h

theorem lookupIndId_mem {nombre tipo medida : String} {ind : List IndRow} {i : Nat}
    (h : lookupIndId nombre tipo medida ind = some i) :
    ∃ b ∈ ind, b.id_indicador = i ∧ b.nombre_indicador = nombre ∧
      b.tipo_dato = tipo ∧ b.tipo_de_medida = medida := by
  induction ind with
  | nil => simp [lookupIndId] at h
  | cons r l ih =>
    simp only [lookupIndId] at h
    cases hr : lookupIndId nombre tipo medida l with
    | some j =>
      rw [hr] at h
      obtain rfl : j = i := by simpa using h
      obtain ⟨b, hb, hbi⟩ := ih hr
      exact ⟨b, List.mem_cons_of_mem _ hb, hbi⟩
    | none =>
      rw [hr] at h
      by_cases hc : r.nombre_indicador = nombre ∧ r.tipo_dato = tipo ∧
          r.tipo_de_medida = medida
      · rw [if_pos hc] at h
        obtain rfl : r.id_indicador = i := by simpa using h
        exact ⟨r, List.mem_cons_self _ _, rfl, hc.1, hc.2.1, hc.2.2⟩
      · rw [if_neg hc] at h
        simp at h

/-! ## Lemmas about the fact builders -/

theorem regionalFacts_ids {geo : List GeoRow} {ind : List IndRow} :
    ∀ {rows : List RegRow} {l : List FactCand}, regionalFacts geo ind rows = some l →
      ∀ c ∈ l, (∃ g ∈ geo, g.id_geografia = c.id_geografia) ∧
        ∃ b ∈ ind, b.id_indicador = c.id_indicador := by
  intro rows
  induction rows with
  | nil =>
    intro l h c hc
    simp only [regionalFacts] at h
    obtain rfl : ([] : List FactCand) = l := by simpa using h
    simp at hc
  | cons r rows ih =>
    intro l h c hc
    simp only [regionalFacts] at h
    cases hv : r.dato_region with
    | none =>
      rw [hv] at h
      exact ih h c hc
    | some v =>
      rw [hv] at h
      cases hg : lookupGeoId "Regional" r.region geo with
      | none => rw [hg] at h; simp at h
      | some gid =>
        rw [hg] at h
        cases hi : lookupIndId r.indicador r.tipo_dato "Prevalencia" ind with
        | none => rw [hi] at h; simp at h
        | some iid =>
          rw [hi] at h
          cases hrest : regionalFacts geo ind rows with
          | none => rw [hrest] at h; simp at h
          | some rest =>
            rw [hrest] at h
            obtain rfl : (⟨gid, iid, r.anio, v⟩ : FactCand) :: rest = l := by
              simpa using h
            rcases List.mem_cons.mp hc with rfl | hc
            · refine ⟨?_, ?_⟩
              · obtain ⟨g, hgm, hgi, _⟩ := lookupGeoId_mem hg
                exact ⟨g, hgm, hgi⟩
              · obtain ⟨b, hbm, hbi, _⟩ := lookupIndId_mem hi
                exact ⟨b, hbm, hbi⟩
            · exact ih hrest c hc

theorem departamentalFacts_ids {geo : List GeoRow} {ind : List IndRow} :
    ∀ {rows : List DepRow} {l : List FactCand}, departamentalFacts geo ind rows = some l →
      ∀ c ∈ l, (∃ g ∈ geo, g.id_geografia = c.id_geografia) ∧
        ∃ b ∈ ind, b.id_indicador = c.id_indicador := by
  intro rows
  induction rows with
  | nil =>
    intro l h c hc
    simp only [departamentalFacts] at h
    obtain rfl : ([] : List FactCand) = l := by simpa using h
    simp at hc
  | cons r rows ih =>
    intro l h c hc
    simp only [departamentalFacts] at h
    cases hv : r.dato_departamento with
    | none =>
      rw [hv] at h
      exact ih h c hc
    | some v =>
      rw [hv] at h
      cases hg : lookupGeoId "Departamental" r.departamento geo with
      | none => rw [hg] at h; simp at h
      | some gid =>
        rw [hg] at h
        cases hi : lookupIndId r.indicador r.tipo_dato r.tipo_de_medida ind with
        | none => rw [hi] at h; simp at h
        | some iid =>
          rw [hi] at h
          cases hrest : departamentalFacts geo ind rows with
          | none => rw [hrest] at h; simp at h
          | some rest =>
            rw [hrest] at h
            obtain rfl : (⟨gid, iid, r.anio, v⟩ : FactCand) :: rest = l := by
              simpa using h
            rcases List.mem_cons.mp hc with rfl | hc
            · refine ⟨?_, ?_⟩
              · obtain ⟨g, hgm, hgi, _⟩ := lookupGeoId_mem hg
                exact ⟨g, hgm, hgi⟩
              · obtain ⟨b, hbm, hbi, _⟩ := lookupIndId_mem hi
                exact ⟨b, hbm, hbi⟩
            · exact ih hrest c hc

theorem municipalFacts_ids {geo : List GeoRow} {ind : List IndRow} :
    ∀ {rows : List MunRow} {l : List FactCand}, municipalFacts geo ind rows = some l →
      ∀ c ∈ l, (∃ g ∈ geo, g.id_geografia = c.id_geografia) ∧
        ∃ b ∈ ind, b.id_indicador = c.id_indicador := by
  intro rows
  induction rows with
  | nil =>
    intro l h c hc
    simp only [municipalFacts] at h
    obtain rfl : ([] : List FactCand) = l := by simpa using h
    simp at hc
  | cons r rows ih =>
    intro l h c hc
    simp only [municipalFacts] at h
    cases hv : r.dato_municipio with
    | none =>
      rw [hv] at h
      exact ih h c hc
    | some v =>
      rw [hv] at h
      cases hg : lookupGeoId "Municipal" r.municipio geo with
      | none => rw [hg] at h; simp at h
      | some gid =>
        rw [hg] at h
        cases hi : lookupIndId r.indicador r.tipo_dato r.tipo_de_medida ind with
        | none => rw [hi] at h; simp at h
        | some iid =>
          rw [hi] at h
          cases hrest : municipalFacts geo ind rows with
          | none => rw [hrest] at h; simp at h
          | some rest =>
            rw [hrest] at h
            obtain rfl : (⟨gid, iid, r.anio, v⟩ : FactCand) :: rest = l := by
              simpa using h
            rcases List.mem_cons.mp hc with rfl | hc
            · refine ⟨?_, ?_⟩
              · obtain ⟨g, hgm, hgi, _⟩ := lookupGeoId_mem hg
                exact ⟨g, hgm, hgi⟩
              · obtain ⟨b, hbm, hbi, _⟩ := lookupIndId_mem hi
                exact ⟨b, hbm, hbi⟩
            · exact ih hrest c hc

theorem nationalFactsGo_ids {ind : List IndRow} {idc : Nat} :
    ∀ {cands : List NatCand} {l : List FactCand}, nationalFactsGo ind idc cands = some l →
      ∀ c ∈ l, c.id_geografia = idc ∧ ∃ b ∈ ind, b.id_indicador = c.id_indicador := by
  intro cands
  induction cands with
  | nil =>
    intro l h c hc
    simp only [nationalFactsGo] at h
    obtain rfl : ([] : List FactCand) = l := by simpa using h
    simp at hc
  | cons d cands ih =>
    intro l h c hc
    simp only [nationalFactsGo] at h
    cases hi : lookupIndId d.indicador d.tipo_dato d.tipo_de_medida ind with
    | none => rw [hi] at h; simp at h
    | some iid =>
      rw [hi] at h
      cases hrest : nationalFactsGo ind idc cands with
      | none => rw [hrest] at h; simp at h
      | some rest =>
        rw [hrest] at h
        obtain rfl : (⟨idc, iid, d.anio, d.valor⟩ : FactCand) :: rest = l := by
          simpa using h
        rcases List.mem_cons.mp hc with rfl | hc
        · refine ⟨rfl, ?_⟩
          obtain ⟨b, hbm, hbi, _⟩ := lookupIndId_mem hi
          exact ⟨b, hbm, hbi⟩
        · exact ih hrest c hc

theorem nationalFacts_ids {geo : List GeoRow} {ind : List IndRow}
    {cands : List NatCand} {l : List FactCand} (h : nationalFacts geo ind cands = some l) :
    ∀ c ∈ l, (∃ g ∈ geo, g.id_geografia = c.id_geografia) ∧
      ∃ b ∈ ind, b.id_indicador = c.id_indicador := by
  intro c hc
  simp only [nationalFacts] at h
  cases hg : lookupGeoId "Nacional" "Colombia" geo with
  | none => rw [hg] at h; simp at h
  | some idc =>
    rw [hg] at h
    obtain ⟨hcg, hci⟩ := nationalFactsGo_ids h c hc
    refine ⟨?_, hci⟩
    obtain ⟨g, hgm, hgi, _⟩ := lookupGeoId_mem hg
    exact ⟨g, hgm, hcg ▸ hgi⟩

theorem emittedFactsWith_ids {reg : List RegRow} {dep : List DepRow}
    {mun : List MunRow} {geo : List GeoRow} {ind : List IndRow}
    {cands : List NatCand} {em : List FactCand}
    (h : emittedFactsWith reg dep mun geo ind cands = some em) :
    ∀ c ∈ em, (∃ g ∈ geo, g.id_geografia = c.id_geografia) ∧
      ∃ b ∈ ind, b.id_indicador = c.id_indicador := by
  intro c hc
  simp only [emittedFactsWith] at h
  cases ha : regionalFacts geo ind reg with
  | none => rw [ha] at h; simp at h
  | some a =>
    rw [ha] at h
    cases hb : departamentalFacts geo ind dep with
    | none => rw [hb] at h; simp at h
    | some b =>
      rw [hb] at h
      cases hm : municipalFacts geo ind mun with
      | none => rw [hm] at h; simp at h
      | some m =>
        rw [hm] at h
        cases hn : nationalFacts geo ind cands with
        | none => rw [hn] at h; simp at h
        | some n =>
          rw [hn] at h
          obtain rfl : a ++ b ++ m ++ n = em := by simpa using h
          rcases List.mem_append.mp hc with hc | hc
          · rcases List.mem_append.mp hc with hc | hc
            · rcases List.mem_append.mp hc with hc | hc
              · exact regionalFacts_ids ha c hc
              · exact departamentalFacts_ids hb c hc
            · exact municipalFacts_ids hm c hc
          · exact nationalFacts_ids hn c hc

theorem toCand_mem_of_mem_numberFacts {r : MedRow} {l : List FactCand}
    (h : r ∈ numberFacts l) : toCand r ∈ l := by
  simp only [numberFacts, List.mem_map] at h
  obtain ⟨p, hp, rfl⟩ := h
  exact snd_mem_of_mem_withIds hp

theorem length_numberFacts (l : List FactCand) :
    (numberFacts l).length = l.length := by
  simp [numberFacts, length_withIds]

theorem create_datos_medicion_with_eq_some {cands : List NatCand}
    {reg : List RegRow} {dep : List DepRow} {mun : List MunRow}
    {geo : List GeoRow} {ind : List IndRow} {med : List MedRow}
    (h : create_datos_medicion_with cands reg dep mun geo ind = some med) :
    ∃ em, emittedFactsWith reg dep mun geo ind cands = some em ∧
      med = dropDupByKey natKey (numberFacts em) := by
  simp only [create_datos_medicion_with, Option.map_eq_some'] at h
  obtain ⟨em, hem, hmed⟩ := h
  exact ⟨em, hem, hmed.symm⟩

theorem municipalFacts_correspondence {geo : List GeoRow} {ind : List IndRow} :
    ∀ {rows : List MunRow} {l : List FactCand}, municipalFacts geo ind rows = some l →
      List.Forall₂ (fun (r : MunRow) (c : FactCand) =>
          lookupGeoId "Municipal" r.municipio geo = some c.id_geografia ∧
          lookupIndId r.indicador r.tipo_dato r.tipo_de_medida ind = some c.id_indicador ∧
          c.anio = r.anio ∧ r.dato_municipio = some c.valor)
        (rows.filter fun r => r.dato_municipio.isSome) l := by
  intro rows
  induction rows with
  | nil =>
    intro l h
    simp only [municipalFacts] at h
    obtain rfl : ([] : List FactCand) = l := by simpa using h
    simp
  | cons r rows ih =>
    intro l h
    simp only [municipalFacts] at h
    cases hv : r.dato_municipio with
    | none =>
      rw [hv] at h
      have : (List.filter (fun r => r.dato_municipio.isSome) (r :: rows)) =
          rows.filter fun r => r.dato_municipio.isSome := by
        simp [List.filter_cons, hv]
      rw [this]
      exact ih h
    | some v =>
      rw [hv] at h
      cases hg : lookupGeoId "Municipal" r.municipio geo with
      | none => rw [hg] at h; simp at h
      | some gid =>
        rw [hg] at h
        cases hi : lookupIndId r.indicador r.tipo_dato r.tipo_de_medida ind with
        | none => rw [hi] at h; simp at h
        | some iid =>
          rw [hi] at h
          cases hrest : municipalFacts geo ind rows with
          | none => rw [hrest] at h; simp at h
          | some rest =>
            rw [hrest] at h
            obtain rfl : (⟨gid, iid, r.anio, v⟩ : FactCand) :: rest = l := by
              simpa using h
            have : (List.filter (fun r => r.dato_municipio.isSome) (r :: rows)) =
                r :: rows.filter fun r => r.dato_municipio.isSome := by
              simp [List.filter_cons, hv]
            rw [this]
            exact List.Forall₂.cons ⟨hg, hi, rfl, hv⟩ (ih hrest)

/-! ## Further generic lemmas -/

theorem filter_map_eq_nil {α β : Type} (f : α → β) (p : β → Bool) (l : List α)
    (h : ∀ a, p (f a) = false) : (l.map f).filter p = [] := by
  induction l with
  | nil => simp
  | cons a l ih => simp [List.filter_cons, h, ih]

theorem filter_map_eq_self {α β : Type} (f : α → β) (p : β → Bool) (l : List α)
    (h : ∀ a, p (f a) = true) : (l.map f).filter p = l.map f := by
  induction l with
  | nil => simp
  | cons a l ih => simp [List.filter_cons, h, ih]

theorem length_filter_isSome_isNone {α β : Type} (f : α → Option β) (l : List α) :
    (l.filter fun a => (f a).isSome).length + (l.filter fun a => (f a).isNone).length
      = l.length := by
  induction l with
  | nil => simp
  | cons a l ih =>
    cases hf : f a <;> simp [List.filter_cons, hf] <;> omega

/-! ## Decomposition of the geography table -/

theorem mem_create_geografia {reg : List RegRow} {dep : List DepRow}
    {mun : List MunRow} {r : GeoRow} (h : r ∈ create_geografia_table reg dep mun) :
    r = ⟨1, "Nacional", "Colombia", none, none⟩ ∨
    (∃ p ∈ withIds 2 (regionNames reg), r = ⟨p.1, "Regional", p.2, some 1, none⟩) ∨
    (∃ p ∈ withIds (2 + (regionNames reg).length) (deptNames dep mun),
      r = ⟨p.1, "Departamental", p.2, some 1, none⟩) ∨
    ∃ p ∈ withIds (2 + (regionNames reg).length + (deptNames dep mun).length)
        (muniPairs mun),
      r = ⟨p.1, "Municipal", p.2.1,
        (posOf p.2.2 (deptNames dep mun)).map ((2 + (regionNames reg).length) + ·),
        none⟩ := by
  simp only [create_geografia_table, List.mem_cons, List.mem_append,
    List.mem_map] at h
  rcases h with h | h
  · rcases h with h | h
    · rcases h with h | h
      · exact Or.inl h
      · obtain ⟨p, hp, rfl⟩ := h
        exact Or.inr (Or.inl ⟨p, hp, rfl⟩)
    · obtain ⟨p, hp, rfl⟩ := h
      exact Or.inr (Or.inr (Or.inl ⟨p, hp, rfl⟩))
  · obtain ⟨p, hp, rfl⟩ := h
    exact Or.inr (Or.inr (Or.inr ⟨p, hp, rfl⟩))

theorem departamental_row_mem {reg : List RegRow} {dep : List DepRow}
    {mun : List MunRow} {s : String} {j : Nat}
    (hj : posOf s (deptNames dep mun) = some j) :
    (⟨2 + (regionNames reg).length + j, "Departamental", s, some 1, none⟩ : GeoRow) ∈
      create_geografia_table reg dep mun := by
  have hmem := posOf_mem_withIds (2 + (regionNames reg).length) hj
  simp only [create_geografia_table, List.mem_cons, List.mem_append, List.mem_map]
  left; right
  exact ⟨(2 + (regionNames reg).length + j, s), hmem, rfl⟩

theorem mem_deptNames_of_mun {dep : List DepRow} {mun : List MunRow} {m : MunRow}
    (hm : m ∈ mun) : m.departamento ∈ deptNames dep mun := by
  simp only [deptNames, mem_sortStrings, mem_uniqueFirst, List.mem_append,
    List.mem_map]
  right
  exact ⟨m, hm, rfl⟩

theorem snd_mem_deptNames_of_muniPairs {dep : List DepRow} {mun : List MunRow}
    {p : String × String} (hp : p ∈ muniPairs mun) : p.2 ∈ deptNames dep mun := by
  have := mem_uniqueFirst.mp hp
  simp only [List.mem_map] at this
  obtain ⟨m, hm, rfl⟩ := this
  exact mem_deptNames_of_mun hm

/-! ## Lemmas about the loader -/

theorem insertGeoRows_eq_ok :
    ∀ {l acc out : List GeoRow}, insertGeoRows acc l = .ok out → out = acc ++ l := by
  intro l
  induction l with
  | nil =>
    intro acc out h
    simp only [insertGeoRows] at h
    obtain rfl : acc = out := by simpa using h
    simp
  | cons r l ih =>
    intro acc out h
    simp only [insertGeoRows] at h
    split at h
    · simp at h
    · have := ih h
      simpa using this

theorem insertIndRows_eq_ok :
    ∀ {l acc out : List IndRow}, insertIndRows acc l = .ok out → out = acc ++ l := by
  intro l
  induction l with
  | nil =>
    intro acc out h
    simp only [insertIndRows] at h
    obtain rfl : acc = out := by simpa using h
    simp
  | cons r l ih =>
    intro acc out h
    simp only [insertIndRows] at h
    split at h
    · simp at h
    · have := ih h
      simpa using this

theorem insertMedRows_eq_ok :
    ∀ {l acc out : List MedRow}, insertMedRows acc l = .ok out → out = acc ++ l := by
  intro l
  induction l with
  | nil =>
    intro acc out h
    simp only [insertMedRows] at h
    obtain rfl : acc = out := by simpa using h
    simp
  | cons r l ih =>
    intro acc out h
    simp only [insertMedRows] at h
    split at h
    · simp at h
    · have := ih h
      simpa using this

/-! ## Claim theorems -/

/-- C7: cleaning conservation. For each source table the cleaned row
count equals the raw row count minus the number of rows whose
level-appropriate value column is null; those null counts are exactly
the per-level filtered diagnostics reported by `transform_data`; and a
null-valued row contributes nothing to any output table: transforming
the raw tables gives the same geography, indicator and fact tables as
transforming the pre-cleaned tables. -/
theorem cleaning_conservation (reg : List RegRow) (dep : List DepRow)
    (mun : List MunRow) :
    (clean_regional reg).length =
      reg.length - (reg.filter fun r => r.dato_region.isNone).length ∧
    (clean_departamental dep).length =
      dep.length - (dep.filter fun r => r.dato_departamento.isNone).length ∧
    (clean_municipal mun).length =
      mun.length - (mun.filter fun r => r.dato_municipio.isNone).length ∧
    (transform_data reg dep mun).regional_filtered =
      (reg.filter fun r => r.dato_region.isNone).length ∧
    (transform_data reg dep mun).departamental_filtered =
      (dep.filter fun r => r.dato_departamento.isNone).length ∧
    (transform_data reg dep mun).municipal_filtered =
      (mun.filter fun r => r.dato_municipio.isNone).length ∧
    (transform_data reg dep mun).geografia =
      (transform_data (clean_regional reg) (clean_departamental dep)
        (clean_municipal mun)).geografia ∧
    (transform_data reg dep mun).indicadores =
      (transform_data (clean_regional reg) (clean_departamental dep)
        (clean_municipal mun)).indicadores ∧
    (transform_data reg dep mun).medicion =
      (transform_data (clean_regional reg) (clean_departamental dep)
        (clean_municipal mun)).medicion := by
  have hr := length_filter_isSome_isNone (fun r : RegRow => r.dato_region) reg
  have hd := length_filter_isSome_isNone (fun r : DepRow => r.dato_departamento) dep
  have hm := length_filter_isSome_isNone (fun r : MunRow => r.dato_municipio) mun
  have idr : clean_regional (clean_regional reg) = clean_regional reg := by
    simp [clean_regional, List.filter_filter]
  have idd : clean_departamental (clean_departamental dep) = clean_departamental dep := by
    simp [clean_departamental, List.filter_filter]
  have idm : clean_municipal (clean_municipal mun) = clean_municipal mun := by
    simp [clean_municipal, List.filter_filter]
  refine ⟨?_, ?_, ?_, ?_, ?_, ?_, ?_, ?_, ?_⟩
  · simp only [clean_regional] at hr ⊢; omega
  · simp only [clean_departamental] at hd ⊢; omega
  · simp only [clean_municipal] at hm ⊢; omega
  · simp only [transform_data, clean_regional] at hr ⊢; omega
  · simp only [transform_data, clean_departamental] at hd ⊢; omega
  · simp only [transform_data, clean_municipal] at hm ⊢; omega
  · simp [transform_data, idr, idd, idm]
  · simp [transform_data, idr, idd, idm]
  · simp [transform_data, idr, idd, idm]

/-- C2: natural-key uniqueness of the fact table. Whenever the fact
construction succeeds, no two distinct rows of the resulting
`datos_medicion` table agree on `id_geografia`, `id_indicador` and
`año` simultaneously. -/
theorem natural_key_unique (reg : List RegRow) (dep : List DepRow)
    (mun : List MunRow) (geo : List GeoRow) (ind : List IndRow) {med : List MedRow}
    (h : create_datos_medicion_table reg dep mun geo ind = some med) :
    med.Pairwise fun r₁ r₂ =>
      ¬(r₁.id_geografia = r₂.id_geografia ∧ r₁.id_indicador = r₂.id_indicador ∧
        r₁.anio = r₂.anio) := by
  obtain ⟨em, hem, rfl⟩ := create_datos_medicion_with_eq_some h
  have hp := dropDupByKeyAux_pairwise natKey [] (numberFacts em)
  exact hp.imp fun hne hconj =>
    hne (by simp [natKey, Prod.ext_iff, hconj.1, hconj.2.1, hconj.2.2])

/-- Witness for C2: on the three one-row sample tables the fact
construction succeeds with four rows and the pairwise natural-key
distinctness holds at them. -/
theorem natural_key_unique_witness :
    sampleMedicion.Pairwise fun r₁ r₂ =>
      ¬(r₁.id_geografia = r₂.id_geografia ∧ r₁.id_indicador = r₂.id_indicador ∧
        r₁.anio = r₂.anio) :=
  natural_key_unique sampleRegional sampleDepartamental sampleMunicipal
    (create_geografia_table sampleRegional sampleDepartamental sampleMunicipal)
    (create_indicadores_table sampleRegional sampleDepartamental sampleMunicipal)
    (by decide)

/-- C5 (code defect witness): the fact table depends on the enumeration
order of the `datos_nacionales` set. The two-row input carries two
distinct national candidates with the same indicator and year, and the
two enumerations of the same set contents (a permutation of each other)
yield different fact tables — a different national value survives
natural-key deduplication — so the construction is not deterministic
across the unspecified hash iteration order of the Python set. -/
theorem national_set_order_sensitivity :
    ((natCandidates inconsistentRegional [] []).reverse).Perm
      (natCandidates inconsistentRegional [] []) ∧
    create_datos_medicion_with (natCandidates inconsistentRegional [] [])
      inconsistentRegional [] []
      (create_geografia_table inconsistentRegional [] [])
      (create_indicadores_table inconsistentRegional [] []) ≠
    create_datos_medicion_with ((natCandidates inconsistentRegional [] []).reverse)
      inconsistentRegional [] []
      (create_geografia_table inconsistentRegional [] [])
      (create_indicadores_table inconsistentRegional [] []) :=
  ⟨List.reverse_perm _, by decide⟩

theorem emittedFactsWith_decomp {reg : List RegRow} {dep : List DepRow}
    {mun : List MunRow} {geo : List GeoRow} {ind : List IndRow}
    {cands : List NatCand} {em : List FactCand}
    (h : emittedFactsWith reg dep mun geo ind cands = some em) :
    ∃ a b c d, regionalFacts geo ind reg = some a ∧
      departamentalFacts geo ind dep = some b ∧
      municipalFacts geo ind mun = some c ∧
      nationalFacts geo ind cands = some d ∧ em = a ++ b ++ c ++ d := by
  simp only [emittedFactsWith] at h
  cases ha : regionalFacts geo ind reg with
  | none => rw [ha] at h; simp at h
  | some a =>
    rw [ha] at h
    cases hb : departamentalFacts geo ind dep with
    | none => rw [hb] at h; simp at h
    | some b =>
      rw [hb] at h
      cases hc : municipalFacts geo ind mun with
      | none => rw [hc] at h; simp at h
      | some c =>
        rw [hc] at h
        cases hd : nationalFacts geo ind cands with
        | none => rw [hd] at h; simp at h
        | some d =>
          rw [hd] at h
          have hx : a ++ b ++ c ++ d = em := by simpa using h
          exact ⟨a, b, c, d, rfl, rfl, rfl, rfl, hx.symm⟩

/-- C1: first-occurrence-wins deduplication over the natural key.
Whenever the fact construction succeeds: the emitted list is the
Regional facts, then the Departamental facts, then the Municipal facts,
then the lifted-national facts; for every natural key the output keeps
exactly the first emitted row with that key (the group's filter of the
output is the one-element prefix of the group's filter of the emission);
and the reported drop count is the number of emitted rows minus the
number of surviving rows. -/
theorem dedup_first_occurrence_wins (reg : List RegRow) (dep : List DepRow)
    (mun : List MunRow) (geo : List GeoRow) (ind : List IndRow)
    {em : List FactCand} {med : List MedRow}
    (hem : emittedFactsWith reg dep mun geo ind (natCandidates reg dep mun) = some em)
    (hmed : create_datos_medicion_table reg dep mun geo ind = some med) :
    (∃ a b c d, regionalFacts geo ind reg = some a ∧
      departamentalFacts geo ind dep = some b ∧
      municipalFacts geo ind mun = some c ∧
      nationalFacts geo ind (natCandidates reg dep mun) = some d ∧
      em = a ++ b ++ c ++ d) ∧
    (∀ k, med.filter (fun r => decide (natKey r = k)) =
      ((numberFacts em).filter fun r => decide (natKey r = k)).take 1) ∧
    duplicates_removed reg dep mun geo ind =
      some ((numberFacts em).length - med.length) := by
  simp only [create_datos_medicion_table] at hmed
  obtain ⟨em2, hem2, rfl⟩ := create_datos_medicion_with_eq_some hmed
  obtain rfl : em = em2 := by
    have := hem.symm.trans hem2
    simpa using this
  refine ⟨emittedFactsWith_decomp hem, ?_, ?_⟩
  · intro k
    simpa using dropDupByKeyAux_filter natKey k [] (numberFacts em)
  · simp only [duplicates_removed, hem, Option.map_some']
    rw [length_numberFacts]

/-- Witness for C1: on the three one-row sample tables, the group of
the Regional fact's natural key keeps exactly its first emitted row and
the reported drop count equals emitted minus kept. -/
theorem dedup_first_occurrence_wins_witness :
    sampleMedicion.filter (fun r => decide (natKey r = (2, 1, 2022))) =
      ((numberFacts sampleEmitted).filter fun r =>
        decide (natKey r = (2, 1, 2022))).take 1 ∧
    duplicates_removed sampleRegional sampleDepartamental sampleMunicipal
      (create_geografia_table sampleRegional sampleDepartamental sampleMunicipal)
      (create_indicadores_table sampleRegional sampleDepartamental sampleMunicipal) =
      some ((numberFacts sampleEmitted).length - sampleMedicion.length) :=
  ⟨(@dedup_first_occurrence_wins sampleRegional sampleDepartamental sampleMunicipal
      (create_geografia_table sampleRegional sampleDepartamental sampleMunicipal)
      (create_indicadores_table sampleRegional sampleDepartamental sampleMunicipal)
      sampleEmitted sampleMedicion (by decide) (by decide)).2.1 (2, 1, 2022),
   (@dedup_first_occurrence_wins sampleRegional sampleDepartamental sampleMunicipal
      (create_geografia_table sampleRegional sampleDepartamental sampleMunicipal)
      (create_indicadores_table sampleRegional sampleDepartamental sampleMunicipal)
      sampleEmitted sampleMedicion (by decide) (by decide)).2.2⟩

/-- C3: referential closure. Whenever the fact construction succeeds,
every output fact's geography id is the id of some row of the supplied
geography table and its indicator id the id of some row of the supplied
indicator table; and every municipal source row's department receives a
Departamental geography row (via the departmental-municipal union), so
its parent lookup resolves even when the department never occurs in the
departmental source table. -/
theorem referential_closure (reg : List RegRow) (dep : List DepRow)
    (mun : List MunRow) (geo : List GeoRow) (ind : List IndRow) {med : List MedRow}
    (hmed : create_datos_medicion_table reg dep mun geo ind = some med) :
    (∀ r ∈ med, (∃ g ∈ geo, g.id_geografia = r.id_geografia) ∧
      ∃ b ∈ ind, b.id_indicador = r.id_indicador) ∧
    ∀ m ∈ mun, ∃ g ∈ create_geografia_table reg dep mun,
      g.nivel = "Departamental" ∧ g.nombre = m.departamento := by
  constructor
  · intro r hr
    simp only [create_datos_medicion_table] at hmed
    obtain ⟨em, hem, rfl⟩ := create_datos_medicion_with_eq_some hmed
    have hr2 : r ∈ numberFacts em := mem_of_mem_dropDupByKey hr
    have hc : toCand r ∈ em := toCand_mem_of_mem_numberFacts hr2
    have := emittedFactsWith_ids hem (toCand r) hc
    simpa [toCand] using this
  · intro m hm
    have hd := @mem_deptNames_of_mun dep mun m hm
    obtain ⟨j, hj⟩ := posOf_exists_of_mem hd
    exact ⟨⟨2 + (regionNames reg).length + j, "Departamental", m.departamento,
      some 1, none⟩, departamental_row_mem hj, rfl, rfl⟩

/-- Witness for C3: the sample fact table's Regional row resolves in the
sample geography and indicator tables, and the sample municipal row's
department has a Departamental geography row. -/
theorem referential_closure_witness :
    ((∃ g ∈ create_geografia_table sampleRegional sampleDepartamental sampleMunicipal,
        g.id_geografia = (⟨1, 2, 1, 2022, mkRat 15 100⟩ : MedRow).id_geografia) ∧
      ∃ b ∈ create_indicadores_table sampleRegional sampleDepartamental sampleMunicipal,
        b.id_indicador = (⟨1, 2, 1, 2022, mkRat 15 100⟩ : MedRow).id_indicador) ∧
    ∃ g ∈ create_geografia_table sampleRegional sampleDepartamental sampleMunicipal,
      g.nivel = "Departamental" ∧
      g.nombre = (⟨"Soledad", "Atlántico", 2022, "IA", some (mkRat 18 100),
        some (mkRat 12 100), some (mkRat 10 100), "Porcentaje",
        "Prevalencia"⟩ : MunRow).departamento :=
  ⟨(@referential_closure sampleRegional sampleDepartamental sampleMunicipal
      (create_geografia_table sampleRegional sampleDepartamental sampleMunicipal)
      (create_indicadores_table sampleRegional sampleDepartamental sampleMunicipal)
      sampleMedicion (by decide)).1 ⟨1, 2, 1, 2022, mkRat 15 100⟩ (by decide),
   (@referential_closure sampleRegional sampleDepartamental sampleMunicipal
      (create_geografia_table sampleRegional sampleDepartamental sampleMunicipal)
      (create_indicadores_table sampleRegional sampleDepartamental sampleMunicipal)
      sampleMedicion (by decide)).2
     ⟨"Soledad", "Atlántico", 2022, "IA", some (mkRat 18 100), some (mkRat 12 100),
      some (mkRat 10 100), "Porcentaje", "Prevalencia"⟩ (by decide)⟩

/-- C4: hierarchy validity of the geography table. Exactly one Nacional
row exists (the filter by level is the one-element list with id 1, name
Colombia and null parent); every Regional and Departamental row's
parent is id 1; every Municipal row's parent is the id of a
Departamental row whose name is the department reported with that
municipality in the source; hence every non-Nacional row's parent is
non-null and resolves to a row of a strictly higher level. -/
theorem geografia_hierarchy (reg : List RegRow) (dep : List DepRow)
    (mun : List MunRow) :
    ((create_geografia_table reg dep mun).filter
        fun r => decide (r.nivel = "Nacional")) =
      [⟨1, "Nacional", "Colombia", none, none⟩] ∧
    (∀ r ∈ create_geografia_table reg dep mun,
      r.nivel = "Regional" ∨ r.nivel = "Departamental" → r.id_padre = some 1) ∧
    (∀ r ∈ create_geografia_table reg dep mun, r.nivel = "Municipal" →
      ∃ d ∈ create_geografia_table reg dep mun, d.nivel = "Departamental" ∧
        r.id_padre = some d.id_geografia ∧ (r.nombre, d.nombre) ∈ muniPairs mun) ∧
    ∀ r ∈ create_geografia_table reg dep mun, r.nivel ≠ "Nacional" →
      ∃ p ∈ create_geografia_table reg dep mun,
        r.id_padre = some p.id_geografia ∧ nivelRank p.nivel < nivelRank r.nivel := by
  have hA : ((withIds 2 (regionNames reg)).map fun p =>
      (⟨p.1, "Regional", p.2, some 1, none⟩ : GeoRow)).filter
        (fun r => decide (r.nivel = "Nacional")) = [] :=
    filter_map_eq_nil _ _ _ fun a => by simp
  have hB : ((withIds (2 + (regionNames reg).length) (deptNames dep mun)).map fun p =>
      (⟨p.1, "Departamental", p.2, some 1, none⟩ : GeoRow)).filter
        (fun r => decide (r.nivel = "Nacional")) = [] :=
    filter_map_eq_nil _ _ _ fun a => by simp
  have hC : ((withIds (2 + (regionNames reg).length + (deptNames dep mun).length)
      (muniPairs mun)).map fun p =>
      (⟨p.1, "Municipal", p.2.1,
        (posOf p.2.2 (deptNames dep mun)).map ((2 + (regionNames reg).length) + ·),
        none⟩ : GeoRow)).filter (fun r => decide (r.nivel = "Nacional")) = [] :=
    filter_map_eq_nil _ _ _ fun a => by simp
  have hmun : ∀ r ∈ create_geografia_table reg dep mun, r.nivel = "Municipal" →
      ∃ d ∈ create_geografia_table reg dep mun, d.nivel = "Departamental" ∧
        r.id_padre = some d.id_geografia ∧ (r.nombre, d.nombre) ∈ muniPairs mun := by
    intro r hr hlev
    rcases mem_create_geografia hr with rfl | ⟨p, hp, rfl⟩ | ⟨p, hp, rfl⟩ | ⟨p, hp, rfl⟩
    · exact absurd hlev (by simp)
    · exact absurd hlev (by simp)
    · exact absurd hlev (by simp)
    · have hpair : p.2 ∈ muniPairs mun := snd_mem_of_mem_withIds hp
      have hd : p.2.2 ∈ deptNames dep mun := snd_mem_deptNames_of_muniPairs hpair
      obtain ⟨j, hj⟩ := posOf_exists_of_mem hd
      refine ⟨⟨2 + (regionNames reg).length + j, "Departamental", p.2.2, some 1, none⟩,
        departamental_row_mem hj, rfl, ?_, ?_⟩
      · simp [hj]
      · simpa using hpair
  refine ⟨?_, ?_, hmun, ?_⟩
  · simp only [create_geografia_table, List.filter_append, List.filter_cons]
    rw [hA, hB, hC]
    simp
  · intro r hr hlev
    rcases mem_create_geografia hr with rfl | ⟨p, hp, rfl⟩ | ⟨p, hp, rfl⟩ | ⟨p, hp, rfl⟩
    · rcases hlev with h | h <;> exact absurd h (by simp)
    · rfl
    · rfl
    · rcases hlev with h | h <;> exact absurd h (by simp)
  · intro r hr hlev
    rcases hcase : mem_create_geografia hr with rfl | ⟨p, hp, rfl⟩ | ⟨p, hp, rfl⟩ | ⟨p, hp, rfl⟩
    · exact absurd rfl hlev
    · refine ⟨⟨1, "Nacional", "Colombia", none, none⟩, ?_, rfl,
        show nivelRank "Nacional" < nivelRank "Regional" by decide⟩
      simp [create_geografia_table, List.mem_cons, List.mem_append]
    · refine ⟨⟨1, "Nacional", "Colombia", none, none⟩, ?_, rfl,
        show nivelRank "Nacional" < nivelRank "Departamental" by decide⟩
      simp [create_geografia_table, List.mem_cons, List.mem_append]
    · obtain ⟨d, hdm, hdn, hpd, _⟩ := hmun _ hr rfl
      refine ⟨d, hdm, hpd, ?_⟩
      rw [hdn]
      exact show nivelRank "Departamental" < nivelRank "Municipal" by decide

/-- Witness for C4: on the sample tables the Nacional filter is the
single expected row, and the Municipal row with id 4 resolves to a
Departamental parent named by its source department. -/
theorem geografia_hierarchy_witness :
    ((create_geografia_table sampleRegional sampleDepartamental sampleMunicipal).filter
        fun r => decide (r.nivel = "Nacional")) =
      [⟨1, "Nacional", "Colombia", none, none⟩] ∧
    ∃ d ∈ create_geografia_table sampleRegional sampleDepartamental sampleMunicipal,
      d.nivel = "Departamental" ∧
      (⟨4, "Municipal", "Soledad", some 3, none⟩ : GeoRow).id_padre =
        some d.id_geografia ∧
      ((⟨4, "Municipal", "Soledad", some 3, none⟩ : GeoRow).nombre, d.nombre) ∈
        muniPairs sampleMunicipal :=
  ⟨(geografia_hierarchy sampleRegional sampleDepartamental sampleMunicipal).1,
   (geografia_hierarchy sampleRegional sampleDepartamental sampleMunicipal).2.2.1
     ⟨4, "Municipal", "Soledad", some 3, none⟩ (by decide) rfl⟩

/-- C6: the duplicated-regional-rows scenario. With two identical
Caribe/2022 rows (value 0.15, embedded national value 0.10) as the
regional input, the geography table has Caribe as row 2 and Colombia as
row 1, and the fact table contains exactly one Regional fact (geography
2 = Caribe, 2022, 0.15) and exactly one lifted Nacional fact (geography
1 = Colombia, 2022, 0.10) — not two of either. -/
theorem scenario_duplicate_regional_rows :
    create_geografia_table dupRegional [] [] =
      [⟨1, "Nacional", "Colombia", none, none⟩,
       ⟨2, "Regional", "Caribe", some 1, none⟩] ∧
    create_indicadores_table dupRegional [] [] =
      [⟨1, "Inseguridad Alimentaria Grave", "Porcentaje", "Prevalencia"⟩] ∧
    create_datos_medicion_table dupRegional [] []
        (create_geografia_table dupRegional [] [])
        (create_indicadores_table dupRegional [] []) =
      some [⟨1, 2, 1, 2022, mkRat 15 100⟩, ⟨3, 1, 1, 2022, mkRat 10 100⟩] ∧
    (([⟨1, 2, 1, 2022, mkRat 15 100⟩, ⟨3, 1, 1, 2022, mkRat 10 100⟩] : List MedRow).filter
      fun r => decide (r.id_geografia = 2 ∧ r.anio = 2022 ∧
        r.valor = mkRat 15 100)).length = 1 ∧
    (([⟨1, 2, 1, 2022, mkRat 15 100⟩, ⟨3, 1, 1, 2022, mkRat 10 100⟩] : List MedRow).filter
      fun r => decide (r.id_geografia = 1 ∧ r.anio = 2022 ∧
        r.valor = mkRat 10 100)).length = 1 := by
  refine ⟨by decide, by decide, by decide, by decide, by decide⟩

/-- C10: municipal facts resolve geography by municipality name alone.
The geography table holds one Municipal row per distinct (municipality,
department) pair; each cleaned municipal row's fact takes its geography
id from the `(Municipal, municipio)` lookup — the department plays no
part — and that lookup returns the id of the last matching geography
row; concretely, with the same name under two departments both facts
carry the id of the later homonymous row (5) and row 4 receives no
facts. -/
theorem municipal_lookup_by_name_only (reg : List RegRow) (dep : List DepRow)
    (mun rows : List MunRow) (geo : List GeoRow) (ind : List IndRow)
    {facts : List FactCand} (h : municipalFacts geo ind rows = some facts) :
    (((create_geografia_table reg dep mun).filter
        fun r => decide (r.nivel = "Municipal")).length = (muniPairs mun).length) ∧
    List.Forall₂ (fun (r : MunRow) (c : FactCand) =>
        lookupGeoId "Municipal" r.municipio geo = some c.id_geografia ∧
        lookupIndId r.indicador r.tipo_dato r.tipo_de_medida ind = some c.id_indicador ∧
        c.anio = r.anio ∧ r.dato_municipio = some c.valor)
      (rows.filter fun r => r.dato_municipio.isSome) facts ∧
    (∀ n s i, lookupGeoId n s geo = some i →
      ∃ pre g suf, geo = pre ++ g :: suf ∧ g.nivel = n ∧ g.nombre = s ∧
        g.id_geografia = i ∧ ∀ g₂ ∈ suf, ¬(g₂.nivel = n ∧ g₂.nombre = s)) ∧
    create_geografia_table [] [] homonymMunicipal =
      [⟨1, "Nacional", "Colombia", none, none⟩,
       ⟨2, "Departamental", "Antioquia", some 1, none⟩,
       ⟨3, "Departamental", "Bolívar", some 1, none⟩,
       ⟨4, "Municipal", "San José", some 2, none⟩,
       ⟨5, "Municipal", "San José", some 3, none⟩] ∧
    create_datos_medicion_table [] [] homonymMunicipal
        (create_geografia_table [] [] homonymMunicipal)
        (create_indicadores_table [] [] homonymMunicipal) =
      some [⟨1, 5, 1, 2020, mkRat 20 100⟩, ⟨2, 5, 1, 2021, mkRat 30 100⟩] := by
  have hA : ((withIds 2 (regionNames reg)).map fun p =>
      (⟨p.1, "Regional", p.2, some 1, none⟩ : GeoRow)).filter
        (fun r => decide (r.nivel = "Municipal")) = [] :=
    filter_map_eq_nil _ _ _ fun a => by simp
  have hB : ((withIds (2 + (regionNames reg).length) (deptNames dep mun)).map fun p =>
      (⟨p.1, "Departamental", p.2, some 1, none⟩ : GeoRow)).filter
        (fun r => decide (r.nivel = "Municipal")) = [] :=
    filter_map_eq_nil _ _ _ fun a => by simp
  have hC : ((withIds (2 + (regionNames reg).length + (deptNames dep mun).length)
      (muniPairs mun)).map fun p =>
      (⟨p.1, "Municipal", p.2.1,
        (posOf p.2.2 (deptNames dep mun)).map ((2 + (regionNames reg).length) + ·),
        none⟩ : GeoRow)).filter (fun r => decide (r.nivel = "Municipal")) =
      (withIds (2 + (regionNames reg).length + (deptNames dep mun).length)
        (muniPairs mun)).map fun p =>
        (⟨p.1, "Municipal", p.2.1,
          (posOf p.2.2 (deptNames dep mun)).map ((2 + (regionNames reg).length) + ·),
          none⟩ : GeoRow) :=
    filter_map_eq_self _ _ _ fun a => by simp
  refine ⟨?_, municipalFacts_correspondence h, fun n s i hi => lookupGeoId_last hi,
    by decide, by decide⟩
  simp only [create_geografia_table, List.filter_append, List.filter_cons]
  rw [hA, hB, hC]
  simp [List.length_append, List.length_map, length_withIds]

/-- Witness for C10: instantiated on the homonymous-municipality input,
the Municipal row count matches the distinct pair count, and the
per-row correspondence holds with both facts taking geography id 5. -/
theorem municipal_lookup_by_name_only_witness :
    (((create_geografia_table [] [] homonymMunicipal).filter
        fun r => decide (r.nivel = "Municipal")).length =
      (muniPairs homonymMunicipal).length) ∧
    List.Forall₂ (fun (r : MunRow) (c : FactCand) =>
        lookupGeoId "Municipal" r.municipio
          (create_geografia_table [] [] homonymMunicipal) = some c.id_geografia ∧
        lookupIndId r.indicador r.tipo_dato r.tipo_de_medida
          (create_indicadores_table [] [] homonymMunicipal) = some c.id_indicador ∧
        c.anio = r.anio ∧ r.dato_municipio = some c.valor)
      (homonymMunicipal.filter fun r => r.dato_municipio.isSome)
      [⟨5, 1, 2020, mkRat 20 100⟩, ⟨5, 1, 2021, mkRat 30 100⟩] :=
  ⟨(@municipal_lookup_by_name_only [] [] homonymMunicipal homonymMunicipal
      (create_geografia_table [] [] homonymMunicipal)
      (create_indicadores_table [] [] homonymMunicipal)
      [⟨5, 1, 2020, mkRat 20 100⟩, ⟨5, 1, 2021, mkRat 30 100⟩] (by decide)).1,
   (@municipal_lookup_by_name_only [] [] homonymMunicipal homonymMunicipal
      (create_geografia_table [] [] homonymMunicipal)
      (create_indicadores_table [] [] homonymMunicipal)
      [⟨5, 1, 2020, mkRat 20 100⟩, ⟨5, 1, 2021, mkRat 30 100⟩] (by decide)).2.1⟩

/-- C8 (code defect witness): load atomicity fails. Loading a valid
one-row geography table and a one-row indicator table together with a
fact table whose natural key is duplicated makes the `datos_medicion`
insert fail and the Load report failure — but the geography and
indicator rows, committed by their own earlier `to_sql` calls, persist
in the file: the committed state is not the schema-only empty state
the claim requires. -/
theorem load_partial_commit :
    load_data_to_database soloGeografia soloIndicadores dupKeyMedicion =
      (false, ⟨soloGeografia, soloIndicadores, []⟩) ∧
    (⟨soloGeografia, soloIndicadores, []⟩ : DbState) ≠ freshDb := by
  exact ⟨by decide, by decide⟩

/-- C9: extractor and validation error behaviour. A missing file makes
extraction fail with the missing-source-file condition for the first
absent level, before any table is returned; with all three files
present the three tables are returned unchanged. Validation succeeds
with `true` exactly when all three column lists equal their expected
schemas and all three tables are nonempty; a column mismatch fails with
the schema-validation condition naming the first offending level with
the expected and actual column lists; with all columns correct, an
empty table fails with the empty-source condition naming the first
empty level. -/
theorem extract_validation_behaviour :
    (∀ d m, extract_excel_files none d m =
      .error (.missingSourceFile "regional")) ∧
    (∀ r m, extract_excel_files (some r) none m =
      .error (.missingSourceFile "departamental")) ∧
    (∀ r d, extract_excel_files (some r) (some d) none =
      .error (.missingSourceFile "municipal")) ∧
    (∀ r d m, extract_excel_files (some r) (some d) (some m) = .ok (r, d, m)) ∧
    (∀ r d m, validate_dataframes r d m = .ok true ↔
      (r.columns = expectedRegionalCols ∧ d.columns = expectedDepartamentalCols ∧
        m.columns = expectedMunicipalCols ∧ r.nrows ≠ 0 ∧ d.nrows ≠ 0 ∧
        m.nrows ≠ 0)) ∧
    (∀ r d m, r.columns ≠ expectedRegionalCols → validate_dataframes r d m =
      .error (.schemaValidationError "regional" expectedRegionalCols r.columns)) ∧
    (∀ r d m, r.columns = expectedRegionalCols →
      d.columns ≠ expectedDepartamentalCols → validate_dataframes r d m =
      .error (.schemaValidationError "departamental" expectedDepartamentalCols
        d.columns)) ∧
    (∀ r d m, r.columns = expectedRegionalCols →
      d.columns = expectedDepartamentalCols → m.columns ≠ expectedMunicipalCols →
      validate_dataframes r d m =
      .error (.schemaValidationError "municipal" expectedMunicipalCols m.columns)) ∧
    (∀ r d m, r.columns = expectedRegionalCols →
      d.columns = expectedDepartamentalCols → m.columns = expectedMunicipalCols →
      r.nrows = 0 → validate_dataframes r d m =
      .error (.emptySourceError "regional")) ∧
    (∀ r d m, r.columns = expectedRegionalCols →
      d.columns = expectedDepartamentalCols → m.columns = expectedMunicipalCols →
      r.nrows ≠ 0 → d.nrows = 0 → validate_dataframes r d m =
      .error (.emptySourceError "departamental")) ∧
    (∀ r d m, r.columns = expectedRegionalCols →
      d.columns = expectedDepartamentalCols → m.columns = expectedMunicipalCols →
      r.nrows ≠ 0 → d.nrows ≠ 0 → m.nrows = 0 → validate_dataframes r d m =
      .error (.emptySourceError "municipal")) := by
  refine ⟨fun d m => rfl, fun r m => rfl, fun r d => rfl, fun r d m => rfl,
    ?_, ?_, ?_, ?_, ?_, ?_, ?_⟩
  · intro r d m
    simp only [validate_dataframes]
    split_ifs with h1 h2 h3 h4 h5 h6 <;> simp_all
  · intro r d m h1
    simp only [validate_dataframes]
    rw [if_pos h1]
  · intro r d m h1 h2
    simp only [validate_dataframes]
    rw [if_neg (by simp [h1]), if_pos h2]
  · intro r d m h1 h2 h3
    simp only [validate_dataframes]
    rw [if_neg (by simp [h1]), if_neg (by simp [h2]), if_pos h3]
  · intro r d m h1 h2 h3 h4
    simp only [validate_dataframes]
    rw [if_neg (by simp [h1]), if_neg (by simp [h2]), if_neg (by simp [h3]),
      if_pos h4]
  · intro r d m h1 h2 h3 h4 h5
    simp only [validate_dataframes]
    rw [if_neg (by simp [h1]), if_neg (by simp [h2]), if_neg (by simp [h3]),
      if_neg h4, if_pos h5]
  · intro r d m h1 h2 h3 h4 h5 h6
    simp only [validate_dataframes]
    rw [if_neg (by simp [h1]), if_neg (by simp [h2]), if_neg (by simp [h3]),
      if_neg h4, if_neg h5, if_pos h6]

/-- Witness for C9: concrete instances — a missing regional file, the
all-good validation of three well-formed tables, and a departmental
schema mismatch naming the level with both column lists. -/
theorem extract_validation_behaviour_witness :
    extract_excel_files none (some ⟨expectedDepartamentalCols, 4⟩)
      (some ⟨expectedMunicipalCols, 5⟩) =
      .error (.missingSourceFile "regional") ∧
    validate_dataframes ⟨expectedRegionalCols, 3⟩ ⟨expectedDepartamentalCols, 4⟩
      ⟨expectedMunicipalCols, 5⟩ = .ok true ∧
    validate_dataframes ⟨expectedRegionalCols, 3⟩ ⟨["bad"], 4⟩
      ⟨expectedMunicipalCols, 5⟩ =
      .error (.schemaValidationError "departamental" expectedDepartamentalCols
        ["bad"]) :=
  ⟨(extract_validation_behaviour).1 (some ⟨expectedDepartamentalCols, 4⟩)
      (some ⟨expectedMunicipalCols, 5⟩),
   ((extract_validation_behaviour).2.2.2.2.1 ⟨expectedRegionalCols, 3⟩
      ⟨expectedDepartamentalCols, 4⟩ ⟨expectedMunicipalCols, 5⟩).mpr
     (by refine ⟨rfl, rfl, rfl, ?_, ?_, ?_⟩ <;> decide),
   (extract_validation_behaviour).2.2.2.2.2.2.1 ⟨expectedRegionalCols, 3⟩
     ⟨["bad"], 4⟩ ⟨expectedMunicipalCols, 5⟩ rfl (by decide)⟩
